import Mathlib

/-!
Verification of the status-line state machine (`codex-rs/tui/src/statusline/state.rs`)
and the MCP enablement registry (`codex-rs/core/src/mcp_registry.rs`).

Modelling conventions:
* `Instant` is a `Nat` (monotonic clock ticks); `Duration` is a `Nat` in the
  same unit.  Rust's `saturating_duration_since` is exactly truncated `Nat`
  subtraction, which never underflows.
* The `FrameRequester` handle is modelled by returning the list of emitted
  frame requests (`Effect`) alongside the new state; methods taking `&self`
  in Rust return no new state, reflecting that they cannot mutate it.
* Rust `Instant::now()` calls inside a method become an explicit `now`
  argument of the corresponding Lean function.
-/

/-- A request emitted towards the frame scheduler: `scheduleFrame` is
`FrameRequester::schedule_frame` (redraw ASAP), `scheduleFrameIn d` is
`FrameRequester::schedule_frame_in` with a delay of `d` milliseconds. -/
inductive Effect where
  | scheduleFrame : Effect
  | scheduleFrameIn (delayMillis : Nat) : Effect
deriving DecidableEq, Repr

/-- The materialized timer snapshot (`RunTimerSnapshot` from the statusline
module), as produced by `RunTimer::snapshot`. -/
structure RunTimerSnapshot where
  elapsed_running : Nat
  last_resume_at : Option Nat
  is_paused : Bool
deriving DecidableEq, Repr

/-- `RunTimer` from `state.rs`: accumulated running duration across
pause/resume cycles plus a fixed spinner anchor instant. -/
structure RunTimer where
  elapsed_running : Nat
  last_resume_at : Option Nat
  is_paused : Bool
  spinner_started_at : Nat
deriving DecidableEq, Repr

/-- `RunTimer::new(now)`: running immediately, zero accumulated time. -/
def RunTimer.new (now : Nat) : RunTimer :=
  { elapsed_running := 0
    last_resume_at := some now
    is_paused := false
    spinner_started_at := now }

/-- `RunTimer::resume(now)`: if paused, record the resume instant and clear
the pause flag; otherwise unchanged. -/
def RunTimer.resume (t : RunTimer) (now : Nat) : RunTimer :=
  if t.is_paused then
    { t with last_resume_at := some now, is_paused := false }
  else
    t

/-- `RunTimer::pause(now)`: if already paused, unchanged; otherwise add the
saturating delta since `last_resume_at` (when present) and set the flag. -/
def RunTimer.pause (t : RunTimer) (now : Nat) : RunTimer :=
  if t.is_paused then
    t
  else
    { t with
      elapsed_running :=
        match t.last_resume_at with
        | some last => t.elapsed_running + (now - last)
        | none => t.elapsed_running
      is_paused := true }

/-- `RunTimer::snapshot(now)`: elapsed time plus, while running, the
saturating delta since the last resume. Pure: takes `&self` in the source. -/
def RunTimer.snapshot (t : RunTimer) (now : Nat) : RunTimerSnapshot :=
  { elapsed_running :=
      if t.is_paused then
        t.elapsed_running
      else
        match t.last_resume_at with
        | some last => t.elapsed_running + (now - last)
        | none => t.elapsed_running
    last_resume_at := t.last_resume_at
    is_paused := t.is_paused }

/-! ## Status-line snapshot data model

The snapshot record types live in the statusline module root (not shown in
the sources); their fields are reconstructed from their uses in `state.rs`
and from the spec's data-model section. -/

/-- Modelled from the spec: optional model info shown in the status line
(label plus an optional reasoning-effort detail string). -/
structure StatusLineModelSnapshot where
  label : String
  detail : Option String
deriving DecidableEq, Repr

/-- Modelled from the spec: one group of token counts (total/input/
cached-input/output/reasoning-output), all non-negative integers. -/
structure TokenCountSnapshot where
  total_tokens : Nat
  input_tokens : Nat
  cached_input_tokens : Nat
  output_tokens : Nat
  reasoning_output_tokens : Nat
deriving DecidableEq, Repr

/-- Modelled from the spec: cumulative session totals plus a last-turn
sub-snapshot. -/
structure StatusLineTokenSnapshot where
  total : TokenCountSnapshot
  last : Option TokenCountSnapshot
deriving DecidableEq, Repr

/-- Modelled from the spec: context-window sub-snapshot (percent remaining,
tokens occupying the window, window size). -/
structure StatusLineContextSnapshot where
  percent_remaining : Nat
  tokens_in_context : Nat
  window : Nat
deriving DecidableEq, Repr

/-- Modelled from the spec: devspace environment tag. -/
structure StatusLineDevspaceSnapshot where
  name : String
deriving DecidableEq, Repr

/-- Modelled from the spec: optional git info; its contents are opaque to
the state machine, which replaces the field wholesale. -/
structure StatusLineGitSnapshot where
  branch : Option String
deriving DecidableEq, Repr

/-- Modelled from the spec: independently optional environment tags. -/
structure StatusLineEnvironmentSnapshot where
  devspace : Option StatusLineDevspaceSnapshot
  hostname : Option String
  aws_profile : Option String
  kubernetes_context : Option String
deriving DecidableEq, Repr

/-- The empty environment (all tags absent). -/
def StatusLineEnvironmentSnapshot.default : StatusLineEnvironmentSnapshot :=
  { devspace := none, hostname := none, aws_profile := none,
    kubernetes_context := none }

/-- Modelled from the spec: the active-run sub-snapshot (`StatusLineRunState`):
task label, interrupt-hint flag, queued messages, optional materialized timer
snapshot, optional spinner anchor. -/
structure StatusLineRunState where
  label : String
  show_interrupt_hint : Bool
  queued_messages : List String
  timer : Option RunTimerSnapshot
  spinner_started_at : Option Nat
deriving DecidableEq, Repr

/-- `StatusLineRunState::default()`: empty label, no hint, no messages, no
timer data. -/
def StatusLineRunState.default : StatusLineRunState :=
  { label := "", show_interrupt_hint := false, queued_messages := [],
    timer := none, spinner_started_at := none }

/-- Modelled from the spec: the render-ready snapshot owned by
`StatusLineState`. -/
structure StatusLineSnapshot where
  cwd_display : Option String
  cwd_basename : Option String
  cwd_fallback : Option String
  model : Option StatusLineModelSnapshot
  tokens : Option StatusLineTokenSnapshot
  context : Option StatusLineContextSnapshot
  environment : StatusLineEnvironmentSnapshot
  git : Option StatusLineGitSnapshot
  run_state : Option StatusLineRunState
deriving DecidableEq, Repr

/-- `StatusLineSnapshot::default()`: everything absent/unknown. -/
def StatusLineSnapshot.default : StatusLineSnapshot :=
  { cwd_display := none, cwd_basename := none, cwd_fallback := none,
    model := none, tokens := none, context := none,
    environment := StatusLineEnvironmentSnapshot.default,
    git := none, run_state := none }

/-- Modelled from the spec: the reasoning-effort configuration value; only
`high` and `low` produce a detail string. -/
inductive ReasoningEffort where
  | minimal
  | low
  | medium
  | high
deriving DecidableEq, Repr

/-- Modelled from the spec: the token-usage input shape (`TokenUsageInfo`):
cumulative and last-turn totals plus an optional model-reported
context-window size. -/
structure TokenUsage where
  total_tokens : Nat
  input_tokens : Nat
  cached_input_tokens : Nat
  output_tokens : Nat
  reasoning_output_tokens : Nat
deriving DecidableEq, Repr

/-- Modelled from the spec: tokens currently occupying the context window, a
derived query on the usage counts. -/
def TokenUsage.tokens_in_context_window (u : TokenUsage) : Nat :=
  u.total_tokens

/-- Modelled from the spec: percentage of the context window remaining given
its size, a derived query on the usage counts. -/
def TokenUsage.percent_of_context_window_remaining
    (u : TokenUsage) (window : Nat) : Nat :=
  if window = 0 then 0
  else (100 * (window - min u.total_tokens window)) / window

/-- Modelled from the spec: the token-usage event payload. -/
structure TokenUsageInfo where
  total_token_usage : TokenUsage
  last_token_usage : TokenUsage
  model_context_window : Option Nat
deriving DecidableEq, Repr

/-- `state.rs`: `StatusLineState` — owns the snapshot, the optional run
timer, queued messages, the interrupt-hint flag and the configured
context-window fallback.  The `FrameRequester` handle is modelled by the
`Effect` lists returned by the mutators; the renderer is external. -/
structure StatusLineState where
  cwd : String
  snapshot : StatusLineSnapshot
  run_timer : Option RunTimer
  queued_messages : List String
  esc_hint : Bool
  context_window_hint : Option Nat
deriving DecidableEq, Repr

/-- `reasoning_detail` from `state.rs`: only `High` and `Low` map to a
detail string. -/
def reasoning_detail (effort : Option ReasoningEffort) : Option String :=
  match effort with
  | some ReasoningEffort.high => some "high"
  | some ReasoningEffort.low => some "low"
  | _ => none

/-- `token_snapshot_from_info` from `state.rs`: builds the token snapshot
(cumulative totals plus an always-present last-turn sub-snapshot) and maps
the resolved context window, when present, to a context snapshot. -/
def token_snapshot_from_info (info : TokenUsageInfo) (context_window : Option Nat) :
    StatusLineTokenSnapshot × Option StatusLineContextSnapshot :=
  let total := info.total_token_usage
  let last := info.last_token_usage
  let token_snapshot : StatusLineTokenSnapshot :=
    { total :=
        { total_tokens := total.total_tokens
          input_tokens := total.input_tokens
          cached_input_tokens := total.cached_input_tokens
          output_tokens := total.output_tokens
          reasoning_output_tokens := total.reasoning_output_tokens }
      last := some
        { total_tokens := last.total_tokens
          input_tokens := last.input_tokens
          cached_input_tokens := last.cached_input_tokens
          output_tokens := last.output_tokens
          reasoning_output_tokens := last.reasoning_output_tokens } }
  let context_snapshot := context_window.map fun window =>
    { percent_remaining := total.percent_of_context_window_remaining window
      tokens_in_context := total.tokens_in_context_window
      window := window }
  (token_snapshot, context_snapshot)

/-- `StatusLineState::set_working_directory`.  The path-derived values
(`format_directory_display` and `file_name`, both external to `state.rs`)
enter as the `display` and `fileName` arguments; the emptiness filter on the
basename is performed here as in the source. -/
def StatusLineState.set_working_directory (s : StatusLineState)
    (cwd display : String) (fileName : Option String) :
    StatusLineState × List Effect :=
  let basename := fileName.filter (fun n => !n.isEmpty)
  ({ s with
      cwd := cwd
      snapshot := { s.snapshot with
        cwd_display := some display
        cwd_basename := basename
        cwd_fallback := basename.or (some display) } },
   [Effect.scheduleFrame])

/-- `StatusLineState::new`: starts from the default snapshot, no timer, no
queued messages, interrupt hint on, fallback window hint from config, then
immediately applies `set_working_directory`. -/
def StatusLineState.new (cwd display : String) (fileName : Option String)
    (context_window_hint : Option Nat) : StatusLineState × List Effect :=
  StatusLineState.set_working_directory
    { cwd := cwd
      snapshot := StatusLineSnapshot.default
      run_timer := none
      queued_messages := []
      esc_hint := true
      context_window_hint := context_window_hint }
    cwd display fileName

/-- `StatusLineState::update_model`. -/
def StatusLineState.update_model (s : StatusLineState)
    (label : String) (effort : Option ReasoningEffort) :
    StatusLineState × List Effect :=
  ({ s with
      snapshot := { s.snapshot with
        model := some { label := label, detail := reasoning_detail effort } } },
   [Effect.scheduleFrame])

/-- `StatusLineState::update_tokens`: with a payload, resolve the context
window (model-reported first, else configured hint) and store the derived
snapshots; without one, clear both fields.  Always requests a redraw. -/
def StatusLineState.update_tokens (s : StatusLineState)
    (info : Option TokenUsageInfo) : StatusLineState × List Effect :=
  match info with
  | some info =>
      let context_window := info.model_context_window.or s.context_window_hint
      let snaps := token_snapshot_from_info info context_window
      ({ s with
          snapshot := { s.snapshot with
            tokens := some snaps.1
            context := snaps.2 } },
       [Effect.scheduleFrame])
  | none =>
      ({ s with
          snapshot := { s.snapshot with tokens := none, context := none } },
       [Effect.scheduleFrame])

/-- `StatusLineState::set_git_info`. -/
def StatusLineState.set_git_info (s : StatusLineState)
    (git : Option StatusLineGitSnapshot) : StatusLineState × List Effect :=
  ({ s with snapshot := { s.snapshot with git := git } }, [Effect.scheduleFrame])

/-- `StatusLineState::set_devspace`. -/
def StatusLineState.set_devspace (s : StatusLineState)
    (devspace : Option String) : StatusLineState × List Effect :=
  ({ s with
      snapshot := { s.snapshot with
        environment := { s.snapshot.environment with
          devspace := devspace.map fun name => { name := name } } } },
   [Effect.scheduleFrame])

/-- `StatusLineState::set_hostname`. -/
def StatusLineState.set_hostname (s : StatusLineState)
    (hostname : Option String) : StatusLineState × List Effect :=
  ({ s with
      snapshot := { s.snapshot with
        environment := { s.snapshot.environment with hostname := hostname } } },
   [Effect.scheduleFrame])

/-- `StatusLineState::set_aws_profile`. -/
def StatusLineState.set_aws_profile (s : StatusLineState)
    (profile : Option String) : StatusLineState × List Effect :=
  ({ s with
      snapshot := { s.snapshot with
        environment := { s.snapshot.environment with aws_profile := profile } } },
   [Effect.scheduleFrame])

/-- `StatusLineState::set_kubernetes_context`. -/
def StatusLineState.set_kubernetes_context (s : StatusLineState)
    (context : Option String) : StatusLineState × List Effect :=
  ({ s with
      snapshot := { s.snapshot with
        environment := { s.snapshot.environment with
          kubernetes_context := context } } },
   [Effect.scheduleFrame])

/-- `StatusLineState::set_session_id`: the body discards its argument
(`let _ = session_id;`) — no field is written and no redraw is requested. -/
def StatusLineState.set_session_id (s : StatusLineState)
    (session_id : Option String) : StatusLineState × List Effect :=
  let _ := session_id
  (s, [])

/-- `StatusLineState::set_queued_messages`: replaces the queued list and
mirrors it into the run sub-snapshot when one exists. -/
def StatusLineState.set_queued_messages (s : StatusLineState)
    (messages : List String) : StatusLineState × List Effect :=
  ({ s with
      queued_messages := messages
      snapshot := { s.snapshot with
        run_state := s.snapshot.run_state.map fun rs =>
          { rs with queued_messages := messages } } },
   [Effect.scheduleFrame])

/-- `StatusLineState::update_run_header`: updates the label of an existing
run sub-snapshot only when it differs (no redraw otherwise); creates a fresh
sub-snapshot with the current hint flag and queued messages when none
exists. -/
def StatusLineState.update_run_header (s : StatusLineState) (header : String) :
    StatusLineState × List Effect :=
  match s.snapshot.run_state with
  | some rs =>
      if rs.label ≠ header then
        ({ s with
            snapshot := { s.snapshot with
              run_state := some { rs with label := header } } },
         [Effect.scheduleFrame])
      else
        (s, [])
  | none =>
      ({ s with
          snapshot := { s.snapshot with
            run_state := some { StatusLineRunState.default with
              label := header
              show_interrupt_hint := s.esc_hint
              queued_messages := s.queued_messages } } },
       [Effect.scheduleFrame])

/-- `StatusLineState::start_task`: resumes an existing timer or creates a
fresh one, then clone-and-overwrites the run sub-snapshot's label, hint flag
and queued messages. -/
def StatusLineState.start_task (s : StatusLineState) (header : String)
    (now : Nat) : StatusLineState × List Effect :=
  let timer :=
    match s.run_timer with
    | some t => t.resume now
    | none => RunTimer.new now
  let rs := s.snapshot.run_state.getD StatusLineRunState.default
  ({ s with
      run_timer := some timer
      snapshot := { s.snapshot with
        run_state := some { rs with
          label := header
          show_interrupt_hint := s.esc_hint
          queued_messages := s.queued_messages } } },
   [Effect.scheduleFrame])

/-- `StatusLineState::complete_task`: pauses any existing timer for
bookkeeping (the paused value is immediately discarded), then drops the
timer and clears the run sub-snapshot. -/
def StatusLineState.complete_task (s : StatusLineState) (now : Nat) :
    StatusLineState × List Effect :=
  let _bookkeeping := s.run_timer.map fun t => t.pause now
  ({ s with run_timer := none, snapshot := { s.snapshot with run_state := none } },
   [Effect.scheduleFrame])

/-- `StatusLineState::resume_timer`: resumes and redraws only when a timer
exists. -/
def StatusLineState.resume_timer (s : StatusLineState) (now : Nat) :
    StatusLineState × List Effect :=
  match s.run_timer with
  | some t => ({ s with run_timer := some (t.resume now) }, [Effect.scheduleFrame])
  | none => (s, [])

/-- `StatusLineState::elapsed_seconds`: whole seconds of the current timer's
elapsed value (instants are nanoseconds in this embedding), absent without a
timer.  Pure read (`&self`). -/
def StatusLineState.elapsed_seconds (s : StatusLineState) (now : Nat) :
    Option Nat :=
  s.run_timer.map fun t => (t.snapshot now).elapsed_running / 1000000000

/-- `StatusLineState::snapshot_for_render`: copies the stored snapshot,
injects the materialized timer snapshot, spinner anchor, queued messages and
hint flag when both a run sub-snapshot and a timer exist, and emits one
48 ms follow-up frame request exactly when an unpaused timer exists.  Takes
`&self` in the source, so the stored state is unchanged by construction. -/
def StatusLineState.snapshot_for_render (s : StatusLineState) (now : Nat) :
    StatusLineSnapshot × List Effect :=
  let snapshot :=
    match s.snapshot.run_state, s.run_timer with
    | some rs, some timer =>
        { s.snapshot with
          run_state := some { rs with
            timer := some (timer.snapshot now)
            spinner_started_at := some timer.spinner_started_at
            queued_messages := s.queued_messages
            show_interrupt_hint := s.esc_hint } }
    | _, _ => s.snapshot
  let effects :=
    match s.run_timer with
    | some timer =>
        if timer.is_paused then [] else [Effect.scheduleFrameIn 48]
    | none => []
  (snapshot, effects)

/-- Whether an unpaused run timer exists — the condition under which
`snapshot_for_render` emits its follow-up frame request. -/
def StatusLineState.timerActiveUnpaused (s : StatusLineState) : Bool :=
  match s.run_timer with
  | some timer => !timer.is_paused
  | none => false

/-- One public mutator call on `StatusLineState`, with the values that the
Rust methods obtain internally (`Instant::now()`, path formatting) made
explicit arguments. -/
inductive Op where
  | setWorkingDirectory (cwd display : String) (fileName : Option String)
  | updateModel (label : String) (effort : Option ReasoningEffort)
  | updateTokens (info : Option TokenUsageInfo)
  | setGitInfo (git : Option StatusLineGitSnapshot)
  | setDevspace (devspace : Option String)
  | setHostname (hostname : Option String)
  | setAwsProfile (profile : Option String)
  | setKubernetesContext (context : Option String)
  | setSessionId (session_id : Option String)
  | setQueuedMessages (messages : List String)
  | updateRunHeader (header : String)
  | startTask (header : String) (now : Nat)
  | completeTask (now : Nat)
  | resumeTimer (now : Nat)
deriving DecidableEq, Repr

/-- Dispatch one mutator call. -/
def StatusLineState.step (s : StatusLineState) (op : Op) :
    StatusLineState × List Effect :=
  match op with
  | .setWorkingDirectory cwd display fileName =>
      s.set_working_directory cwd display fileName
  | .updateModel label effort => s.update_model label effort
  | .updateTokens info => s.update_tokens info
  | .setGitInfo git => s.set_git_info git
  | .setDevspace devspace => s.set_devspace devspace
  | .setHostname hostname => s.set_hostname hostname
  | .setAwsProfile profile => s.set_aws_profile profile
  | .setKubernetesContext context => s.set_kubernetes_context context
  | .setSessionId session_id => s.set_session_id session_id
  | .setQueuedMessages messages => s.set_queued_messages messages
  | .updateRunHeader header => s.update_run_header header
  | .startTask header now => s.start_task header now
  | .completeTask now => s.complete_task now
  | .resumeTimer now => s.resume_timer now

/-- The mutators after which the run sub-snapshot is unconditionally
present: `start_task`, and also `update_run_header`, which creates the
sub-snapshot when none exists. -/
def opEnsuresRunState : Op → Bool
  | .startTask _ _ => true
  | .updateRunHeader _ => true
  | _ => false

/-- The sole mutator that clears the run sub-snapshot. -/
def opClearsRunState : Op → Bool
  | .completeTask _ => true
  | _ => false

/-! ## MCP registry (`codex-rs/core/src/mcp_registry.rs`)

The registry is a `BTreeSet<String>` of enabled server names, persisted as a
JSON object `\x7b "enabled": [names...] \x7d`.  The `BTreeSet` is modelled
as a `Finset String`; serialization iterates it in sorted order, as the
`BTreeSet` serializer does.  `serde_json` and the filesystem are external:
file contents are modelled as either a JSON value or unparsable text, and a
read as found/not-found/other-error. -/

/-- A JSON value, as far as the registry file format needs one. -/
inductive Json where
  | str (s : String)
  | num (n : Int)
  | arr (xs : List Json)
  | obj (fields : List (String × Json))
  | null

/-- The contents found in a file: a parsed JSON document, or text that is
not valid JSON. -/
inductive FileContents where
  | json (j : Json)
  | invalid

/-- An I/O error other than not-found, kept abstract. -/
structure IoError where
  code : Nat
deriving DecidableEq, Repr

/-- The outcome of reading the registry file. -/
inductive FileRead where
  | found (contents : FileContents)
  | notFound
  | otherError (e : IoError)

/-- `McpRegistry`: the set of enabled server names. -/
structure McpRegistry where
  enabled : Finset String
deriving DecidableEq

/-- `McpRegistry::default()`: nothing enabled. -/
def McpRegistry.default : McpRegistry := { enabled := ∅ }

/-- `registry_path`: environment override first, else the platform state
directory joined with `codex`, else `state` under the codex home; the file
name is fixed. -/
def registry_path (env_override state_dir : Option String)
    (codex_home : String) : String :=
  let base :=
    match env_override with
    | some p => p
    | none =>
        match state_dir with
        | some d => d ++ "/codex"
        | none => codex_home ++ "/state"
  base ++ "/mcp_registry.json"

/-- The string content of a JSON value, when it is a string. -/
def Json.asString : Json → Option String
  | .str s => some s
  | _ => none

/-- Decode a sequence of JSON values as strings, failing on the first
non-string element, as serde does for a `BTreeSet<String>`. -/
def decodeStringList : List Json → Option (List String)
  | [] => some []
  | x :: xs =>
      match x.asString with
      | some s => (decodeStringList xs).map fun rest => s :: rest
      | none => none

/-- Decode a JSON value as a list of strings. -/
def decodeStringArray : Json → Option (List String)
  | .arr xs => decodeStringList xs
  | _ => none

/-- First value bound to `key` in a JSON object's field list. -/
def lookupField (fields : List (String × Json)) (key : String) : Option Json :=
  match fields with
  | [] => none
  | (k, v) :: rest => if k = key then some v else lookupField rest key

/-- Deserialization of `McpRegistry` (serde): the document must be an
object; a missing `enabled` field falls back to the default thanks to
`#[serde(default)]`; a present field must be an array of strings. -/
def decodeRegistryJson (j : Json) : Option McpRegistry :=
  match j with
  | .obj fields =>
      match lookupField fields "enabled" with
      | none => some McpRegistry.default
      | some v => (decodeStringArray v).map fun names => { enabled := names.toFinset }
  | _ => none

/-- `serde_json::from_str::<McpRegistry>` on the file contents: unparsable
text or a document of the wrong shape yields no registry. -/
def decodeRegistry : FileContents → Option McpRegistry
  | .json j => decodeRegistryJson j
  | .invalid => none

/-- Serialization of `McpRegistry` (serde): one-field object whose value is
the enabled names as a JSON array, in the sorted order a `BTreeSet`
iterates in. -/
def encodeRegistry (r : McpRegistry) : Json :=
  .obj [("enabled", .arr ((r.enabled.sort (· ≤ ·)).map Json.str))]

/-- `McpRegistry::load` on the outcome of reading the resolved path: missing
file and parse failure both produce the default registry (the latter after a
logged warning); any other read error propagates. -/
def McpRegistry.load (read : FileRead) : Except IoError McpRegistry :=
  match read with
  | .notFound => .ok McpRegistry.default
  | .otherError e => .error e
  | .found contents =>
      match decodeRegistry contents with
      | some registry => .ok registry
      | none => .ok McpRegistry.default

/-- The contents `McpRegistry::save` writes on success (via a temporary file
atomically renamed over the target). -/
def McpRegistry.save_contents (r : McpRegistry) : FileContents :=
  .json (encodeRegistry r)

/-- A filesystem as seen by the registry: what a read at each path returns. -/
def Fs : Type := String → FileRead

/-- The filesystem after a successful `save` of `r` at `path`: the target
path now holds the serialized registry; nothing else changes (the atomic
temp-file rename never leaves a partial file visible). -/
def McpRegistry.save (r : McpRegistry) (fs : Fs) (path : String) : Fs :=
  fun p => if p = path then .found r.save_contents else fs p

/-- `McpRegistry::load` reading from a filesystem at a path. -/
def McpRegistry.load_from (fs : Fs) (path : String) :
    Except IoError McpRegistry :=
  McpRegistry.load (fs path)

/-- `McpRegistry::set_enabled`: insert or remove the name; the returned flag
is `BTreeSet::insert`/`remove`'s report of whether the set changed. -/
def McpRegistry.set_enabled (r : McpRegistry) (name : String) (enable : Bool) :
    McpRegistry × Bool :=
  if enable then
    ({ enabled := insert name r.enabled }, decide (name ∉ r.enabled))
  else
    ({ enabled := r.enabled.erase name }, decide (name ∈ r.enabled))

/-- `McpRegistry::is_enabled`: membership in the enabled set. -/
def McpRegistry.is_enabled (r : McpRegistry) (name : String) : Bool :=
  decide (name ∈ r.enabled)

/-- Decoding a JSON string array built from a list of names recovers the
names. -/
theorem decodeStringList_map_str (l : List String) :
    decodeStringList (l.map Json.str) = some l := by
  induction l with
  | nil => rfl
  | cons a l ih => simp [decodeStringList, Json.asString, ih]

/-- Deserializing the serialized registry recovers the registry: the sorted
array of names rebuilds the same enabled set. -/
theorem decode_encode_registry (r : McpRegistry) :
    decodeRegistry r.save_contents = some r := by
  cases r with
  | mk enabled =>
      simp [McpRegistry.save_contents, decodeRegistry, encodeRegistry,
        decodeRegistryJson, lookupField, decodeStringArray,
        decodeStringList_map_str, Finset.sort_toFinset]

/-! ## Claim theorems -/

/-- C2: pausing a running timer at `t1`, resuming at `t2 ≥ t1`, and taking a
snapshot `d` ticks after the resume yields exactly the elapsed value observed
at the pause instant plus `d`; the paused interval contributes nothing. -/
theorem runTimer_pause_resume_no_double_count
    (t : RunTimer) (t1 t2 d : Nat)
    (hrun : t.is_paused = false) (hle : t1 ≤ t2) :
    (((t.pause t1).resume t2).snapshot (t2 + d)).elapsed_running
      = (t.snapshot t1).elapsed_running + d := by
  cases hlast : t.last_resume_at with
  | none =>
      simp [RunTimer.pause, RunTimer.resume, RunTimer.snapshot, hrun, hlast,
        Nat.add_sub_cancel_left]
  | some last =>
      simp [RunTimer.pause, RunTimer.resume, RunTimer.snapshot, hrun, hlast,
        Nat.add_sub_cancel_left]

/-- Witness for C2 at concrete inputs: the spec's own end-to-end scenario
(start at 0, pause at 5, resume at 8, query at 10 gives 5 + 2 = 7). -/
theorem runTimer_pause_resume_no_double_count_witness :
    ((((RunTimer.new 0).pause 5).resume 8).snapshot (8 + 2)).elapsed_running
      = ((RunTimer.new 0).snapshot 5).elapsed_running + 2 :=
  runTimer_pause_resume_no_double_count (RunTimer.new 0) 5 8 2 rfl (by decide)

/-- C3: for every timer state and instants `n1 ≤ n2`, the snapshot elapsed
value is monotone in `now` while running and constant while paused, and when
`now` precedes `last_resume_at` the saturating subtraction yields no extra
delta (no underflow). `snapshot` is a pure function of `(t, now)` by
construction, mirroring the `&self` receiver. -/
theorem runTimer_snapshot_monotone (t : RunTimer) (n1 n2 : Nat) (hle : n1 ≤ n2) :
    ((t.is_paused = false →
        (t.snapshot n1).elapsed_running ≤ (t.snapshot n2).elapsed_running)
      ∧ (t.is_paused = true →
        (t.snapshot n1).elapsed_running = (t.snapshot n2).elapsed_running))
      ∧ (∀ last, t.last_resume_at = some last → n1 ≤ last →
        (t.snapshot n1).elapsed_running = t.elapsed_running) := by
  refine ⟨⟨?_, ?_⟩, ?_⟩
  · intro hrun
    cases hlast : t.last_resume_at with
    | none => simp [RunTimer.snapshot, hrun, hlast]
    | some last =>
        simp only [RunTimer.snapshot, hrun, hlast, if_false, Bool.false_eq_true]
        exact Nat.add_le_add_left (Nat.sub_le_sub_right hle last) _
  · intro hp
    simp [RunTimer.snapshot, hp]
  · intro last hlast hle1
    cases hp : t.is_paused with
    | true => simp [RunTimer.snapshot, hp]
    | false =>
        simp [RunTimer.snapshot, hp, hlast, Nat.sub_eq_zero_of_le hle1]

/-- Witness for C3 at concrete inputs: a freshly started timer observed at
instants 3 and 5, and the no-underflow clause at an instant before the
resume point of a timer resumed at 4. -/
theorem runTimer_snapshot_monotone_witness :
    (((RunTimer.new 0).snapshot 3).elapsed_running
        ≤ ((RunTimer.new 0).snapshot 5).elapsed_running)
      ∧ ((((RunTimer.new 2).pause 4).resume 4).snapshot 3).elapsed_running
        = (((RunTimer.new 2).pause 4).resume 4).elapsed_running :=
  ⟨((runTimer_snapshot_monotone (RunTimer.new 0) 3 5 (by decide)).1.1 rfl),
   ((runTimer_snapshot_monotone (((RunTimer.new 2).pause 4).resume 4) 3 5
      (by decide)).2 4 rfl (by decide))⟩

/-- C1 counterexample: on a freshly constructed state (no `start_task` ever
called), `update_run_header` creates the run sub-snapshot, so `run_state`
can be `Some` outside any `start_task`..`complete_task` interval. -/
theorem updateRunHeader_creates_run_state_counterexample :
    ((StatusLineState.new "/w" "w" (some "w") none).1.snapshot.run_state = none)
    ∧ (((StatusLineState.new "/w" "w" (some "w") none).1.update_run_header
        "Build").1.snapshot.run_state.isSome = true) :=
  ⟨rfl, rfl⟩

/-- C1 (amended): after any single mutator call, the run sub-snapshot is
present exactly when the call was `start_task` or `update_run_header`
(both unconditionally ensure it, the latter creating it when absent),
absent after `complete_task`, and otherwise exactly as present as before:
no other mutator creates or destroys it. -/
theorem statusLine_run_state_presence (s : StatusLineState) (op : Op) :
    (s.step op).1.snapshot.run_state.isSome
      = (if opClearsRunState op then false
         else if opEnsuresRunState op then true
         else s.snapshot.run_state.isSome) := by
  cases op with
  | updateRunHeader header =>
      cases hrs : s.snapshot.run_state with
      | none =>
          simp [StatusLineState.step, StatusLineState.update_run_header, hrs,
            opClearsRunState, opEnsuresRunState]
      | some rs =>
          simp only [StatusLineState.step, StatusLineState.update_run_header,
            hrs, opClearsRunState, opEnsuresRunState]
          split <;> simp [hrs]
  | setQueuedMessages messages =>
      cases hrs : s.snapshot.run_state <;>
        simp [StatusLineState.step, StatusLineState.set_queued_messages, hrs,
          opClearsRunState, opEnsuresRunState]
  | updateTokens info =>
      cases info <;>
        simp [StatusLineState.step, StatusLineState.update_tokens,
          opClearsRunState, opEnsuresRunState]
  | resumeTimer now =>
      cases hrt : s.run_timer <;>
        simp [StatusLineState.step, StatusLineState.resume_timer, hrt,
          opClearsRunState, opEnsuresRunState]
  | _ =>
      simp [StatusLineState.step, StatusLineState.set_working_directory,
        StatusLineState.update_model,
        StatusLineState.set_git_info, StatusLineState.set_devspace,
        StatusLineState.set_hostname, StatusLineState.set_aws_profile,
        StatusLineState.set_kubernetes_context, StatusLineState.set_session_id,
        StatusLineState.start_task, StatusLineState.complete_task,
        opClearsRunState, opEnsuresRunState]

/-- C4: `snapshot_for_render` emits exactly one follow-up request, with a
48 ms delay, when an unpaused timer exists — and, not being deduplicated,
does so again on a second immediate call — and emits nothing when the timer
is paused or absent.  The stored state is unchanged: the function consumes
`&self`, which the embedding reflects by returning no new state. -/
theorem snapshot_for_render_follow_up (s : StatusLineState) (n1 n2 : Nat) :
    (s.timerActiveUnpaused = true →
      (s.snapshot_for_render n1).2 = [Effect.scheduleFrameIn 48]
        ∧ (s.snapshot_for_render n2).2 = [Effect.scheduleFrameIn 48])
    ∧ (s.timerActiveUnpaused = false → (s.snapshot_for_render n1).2 = []) := by
  cases htimer : s.run_timer with
  | none =>
      simp [StatusLineState.timerActiveUnpaused,
        StatusLineState.snapshot_for_render, htimer]
  | some t =>
      cases hp : t.is_paused <;>
        simp [StatusLineState.timerActiveUnpaused,
          StatusLineState.snapshot_for_render, htimer, hp]

/-- Witness for C4 at a concrete state: after `start_task` the timer is
unpaused, and two successive render snapshots each emit one 48 ms
follow-up. -/
theorem snapshot_for_render_follow_up_witness :
    ((((StatusLineState.new "/w" "w" (some "w") none).1.start_task "Build"
        0).1.snapshot_for_render 10).2 = [Effect.scheduleFrameIn 48])
    ∧ ((((StatusLineState.new "/w" "w" (some "w") none).1.start_task "Build"
        0).1.snapshot_for_render 20).2 = [Effect.scheduleFrameIn 48]) :=
  (snapshot_for_render_follow_up
    ((StatusLineState.new "/w" "w" (some "w") none).1.start_task "Build" 0).1
    10 20).1 rfl

/-- C5: after `complete_task`, whatever the prior timer and pause state, the
timer is gone, the run sub-snapshot is cleared, `elapsed_seconds` returns
none, and any later render snapshot carries no run indicator. -/
theorem complete_task_clears_run (s : StatusLineState) (now n2 n3 : Nat) :
    ((s.complete_task now).1.run_timer = none)
    ∧ ((s.complete_task now).1.snapshot.run_state = none)
    ∧ ((s.complete_task now).1.elapsed_seconds n2 = none)
    ∧ (((s.complete_task now).1.snapshot_for_render n3).1.run_state = none) :=
  ⟨rfl, rfl, rfl, rfl⟩

/-- C6: `update_tokens` with no payload clears both the token and the
context fields; with a payload, the context snapshot is built from the
model-reported window size when present, else the configured hint, and is
present exactly when one of the two is. -/
theorem update_tokens_context_resolution (s : StatusLineState)
    (info : TokenUsageInfo) :
    ((s.update_tokens none).1.snapshot.tokens = none
      ∧ (s.update_tokens none).1.snapshot.context = none)
    ∧ ((s.update_tokens (some info)).1.snapshot.context
        = (info.model_context_window.or s.context_window_hint).map fun w =>
            { percent_remaining :=
                info.total_token_usage.percent_of_context_window_remaining w
              tokens_in_context :=
                info.total_token_usage.tokens_in_context_window
              window := w })
    ∧ ((s.update_tokens (some info)).1.snapshot.context.isSome
        = (info.model_context_window.isSome || s.context_window_hint.isSome)) := by
  refine ⟨⟨rfl, rfl⟩, rfl, ?_⟩
  cases h1 : info.model_context_window <;>
    cases h2 : s.context_window_hint <;>
      simp [StatusLineState.update_tokens, token_snapshot_from_info, h1, h2,
        Option.or]

/-- C10: `set_session_id` is a complete no-op: the state is returned
untouched and no frame request is emitted. -/
theorem set_session_id_noop (s : StatusLineState) (session_id : Option String) :
    s.set_session_id session_id = (s, []) :=
  rfl

/-- C7: loading the registry returns the empty default on a missing file and
on unparsable contents (warning only), and propagates every other read
error. -/
theorem mcp_load_error_handling :
    (McpRegistry.load .notFound = .ok McpRegistry.default)
    ∧ (∀ contents, decodeRegistry contents = none →
        McpRegistry.load (.found contents) = .ok McpRegistry.default)
    ∧ (∀ e, McpRegistry.load (.otherError e) = .error e) := by
  refine ⟨rfl, ?_, fun e => rfl⟩
  intro contents h
  simp [McpRegistry.load, h]

/-- Witness for C7 at a concrete input: a file holding invalid JSON loads as
the empty registry. -/
theorem mcp_load_error_handling_witness :
    McpRegistry.load (.found .invalid) = .ok McpRegistry.default :=
  mcp_load_error_handling.2.1 .invalid rfl

/-- C8: a successful `save` followed by `load` from the same resolved path
returns the saved registry: serializing the enabled set and deserializing it
is the identity. -/
theorem mcp_registry_round_trip (r : McpRegistry) (fs : Fs)
    (env_override state_dir : Option String) (codex_home : String) :
    McpRegistry.load_from
        (r.save fs (registry_path env_override state_dir codex_home))
        (registry_path env_override state_dir codex_home)
      = .ok r := by
  simp [McpRegistry.load_from, McpRegistry.save, McpRegistry.load,
    decode_encode_registry]

/-- C9: `set_enabled` reports `true` exactly when the registry changed,
leaves the queried name enabled exactly per the flag, and leaves every other
name's membership untouched. -/
theorem set_enabled_spec (r : McpRegistry) (name : String) (enable : Bool) :
    (((r.set_enabled name enable).2 = true) ↔ (r.set_enabled name enable).1 ≠ r)
    ∧ ((r.set_enabled name enable).1.is_enabled name = enable)
    ∧ (∀ other, other ≠ name →
        (r.set_enabled name enable).1.is_enabled other = r.is_enabled other) := by
  cases r with
  | mk en =>
      cases enable with
      | true =>
          refine ⟨?_, ?_, ?_⟩
          · simp [McpRegistry.set_enabled, McpRegistry.mk.injEq,
              Finset.insert_eq_self]
          · simp [McpRegistry.set_enabled, McpRegistry.is_enabled]
          · intro other h
            simp [McpRegistry.set_enabled, McpRegistry.is_enabled,
              Finset.mem_insert, h]
      | false =>
          refine ⟨?_, ?_, ?_⟩
          · simp [McpRegistry.set_enabled, McpRegistry.mk.injEq,
              Finset.erase_eq_self]
          · simp [McpRegistry.set_enabled, McpRegistry.is_enabled]
          · intro other h
            simp [McpRegistry.set_enabled, McpRegistry.is_enabled,
              Finset.mem_erase, h]

/-- Witness for C9 at concrete inputs: enabling a new name in a registry
holding one other name leaves that other name's membership unchanged. -/
theorem set_enabled_spec_witness :
    (({ enabled := {"docs"} } : McpRegistry).set_enabled "build" true).1.is_enabled
        "docs"
      = ({ enabled := {"docs"} } : McpRegistry).is_enabled "docs" :=
  (set_enabled_spec { enabled := {"docs"} } "build" true).2.2 "docs" (by decide)
